import Mathlib

/-!
# UDP echo example: server loop, echo session and load-test worker

A shallow embedding of `src/example.cpp`.

* Bytes (`uint8_t`) are `Fin 256`; byte vectors are lists.
* The network is not part of the program.  It enters the model as a
  `Transport`: a state type together with the outcome of every blocking
  socket call, so that every statement below is quantified over all
  behaviours of the network.
* A call that can throw returns a `Result`; a socket call that can fail returns
  an `Except error_code`, and the program turns the error code into the
  exception it throws.
* Code that performs I/O returns, next to its result, the list of operations
  it performed, in program order.
-/

namespace Example

/-! ## Data model -/

/-- One `uint8_t`. -/
abbrev Byte := Fin 256

/-- Value of `boost::asio::ip::address`: the family and the address bits. -/
structure address where
  is_v6 : Bool
  bits : Nat
deriving DecidableEq, Repr

/-- Value of `boost::asio::ip::udp::endpoint`: an address and a port. -/
structure endpoint where
  addr : address
  port : Nat
deriving DecidableEq, Repr

/-- A `boost::system::error_code` as the program sees it: its value, zero for
no error, and the text `what()` of the `boost::system::system_error` thrown
for it. -/
structure error_code where
  value : Nat
  what : String
deriving DecidableEq, Repr

/-- The exceptions the program can see, all derived from `std::exception`:
`std::logic_error` thrown by `session::echo`, and
`boost::system::system_error` thrown by the blocking socket calls. -/
inductive exception where
  | logic_error (what_arg : String)
  | system_error (ec : error_code)
deriving DecidableEq, Repr

/-- The text of `e.what()`. -/
def exception.what : exception → String
  | .logic_error what_arg => what_arg
  | .system_error ec => ec.what

/-- Result of a call that returns `α` or throws. -/
inductive Result (α : Type) where
  | ok (value : α)
  | throws (e : exception)
deriving DecidableEq, Repr

/-- What a successful `receive_from` delivers: the sender it stores in its
endpoint argument, the byte count it returns, and the bytes it stores at the
start of the buffer. -/
structure Received where
  sender : endpoint
  bytes_recvd : Nat
  data : List Byte
deriving DecidableEq, Repr

/-- The blocking socket calls of a session, as seen from the program.  `σ` is
the state of everything outside the program (the socket, the network, the
peer).  `receive_from` is given the capacity of the buffer it may fill.  Every
call returns, with a value or an error code: a call that blocks for ever is
not modelled. -/
structure Transport (σ : Type) where
  open_socket : σ → σ × Except error_code Unit
  send_to : σ → List Byte → endpoint → σ × Except error_code Nat
  receive_from : σ → Nat → σ × Except error_code Received

/-- The buffer `buf` after a receive stored `data` at its start.  A buffer
never changes size: bytes beyond its capacity are not stored, bytes beyond the
stored ones keep their value. -/
def store (buf data : List Byte) : List Byte :=
  (data ++ buf.drop data.length).take buf.length

/-- A socket operation performed by a session. -/
inductive SocketOp where
  | send_to (data : List Byte) (destination : endpoint)
  | receive_from (capacity : Nat)
deriving DecidableEq, Repr

/-! ## `session` -/

/-- State of a `session`: the member `endpoint_`.  The members `io_` and
`socket_` are handles on the transport state. -/
structure session where
  endpoint_ : endpoint
deriving DecidableEq, Repr

/-- Outcome of a call of a member function of `session`: the session and the
transport state after the call, the socket operations performed, in order,
and the result.  A failed socket call throws the `system_error` of its error
code. -/
structure Run (σ α : Type) where
  self : session
  world : σ
  ops : List SocketOp
  result : Result α

/-- The `std::logic_error` thrown by `session::echo` for a reply of another
length. -/
def size_error : exception :=
  .logic_error "Different size of reply and request"

/-- The `std::logic_error` thrown by `session::echo` for a reply of the same
length and other content. -/
def data_error : exception :=
  .logic_error "Different data value of request and reply"

/-- The constructor `session::session(address, port)`: sets `endpoint_` and
opens the socket. -/
def session.construct (T : Transport σ) (w : σ) (a : address) (port : Nat) :
    σ × Result session :=
  let endpoint_ : endpoint := { addr := a, port := port }
  match T.open_socket w with
  | (w1, .error ec) => (w1, .throws (.system_error ec))
  | (w1, .ok _) => (w1, .ok { endpoint_ := endpoint_ })

/-- The member function `session::echo(request)`.

`receive_from` is called with `buffer(reply)`, a copy of the request, and with
the member `endpoint_` as the endpoint to store the sender in. -/
def session.echo (T : Transport σ) (s : session) (w : σ) (request : List Byte) :
    Run σ Unit :=
  let reply := request
  let op1 := SocketOp.send_to request s.endpoint_
  match T.send_to w request s.endpoint_ with
  | (w1, .error ec) =>
    { self := s, world := w1, ops := [op1], result := .throws (.system_error ec) }
  | (w1, .ok _) =>
    let op2 := SocketOp.receive_from reply.length
    match T.receive_from w1 reply.length with
    | (w2, .error ec) =>
      { self := s, world := w2, ops := [op1, op2], result := .throws (.system_error ec) }
    | (w2, .ok r) =>
      let reply := store reply r.data
      let s1 : session := { s with endpoint_ := r.sender }
      let reply_length := r.bytes_recvd
      if reply_length ≠ request.length then
        { self := s1, world := w2, ops := [op1, op2], result := .throws size_error }
      else if reply ≠ request then
        { self := s1, world := w2, ops := [op1, op2], result := .throws data_error }
      else
        { self := s1, world := w2, ops := [op1, op2], result := .ok () }

/-! ## `client::thread_func` -/

/-- What a worker does, as seen from outside: a call of `session::echo`, with
the request passed, the socket operations the call performed and its result;
or one line written to `ostream_` and ended by `std::endl`. -/
inductive Event where
  | echo (request : List Byte) (ops : List SocketOp) (result : Result Unit)
  | line (text : String)
deriving DecidableEq, Repr

/-- The members `address_` and `port_` of `client`. -/
structure client where
  address_ : address
  port_ : Nat
deriving DecidableEq, Repr

/-- The array `message_sizes` of `client::thread_func`. -/
def message_sizes : List Nat := [0, 1, 3, 7, 234, 6432, 23221, 3311, 34, 4521, 333]

/-- The constant `cnt` of `client::thread_func`. -/
def cnt : Nat := 1024 * 10

/-- State of a worker inside `thread_func`, with the events so far of the
statement being run and the result of that statement. -/
structure Work (σ : Type) where
  self : session
  world : σ
  events : List Event
  result : Result Unit

/-- The loop `for (auto i = 0; i < cnt; ++i) s.echo(mess);` with `todo`
iterations left.  An exception of `echo` leaves the loop. -/
def echo_loop (T : Transport σ) (mess : List Byte) : Nat → session → σ → Work σ
  | 0, s, w => { self := s, world := w, events := [], result := .ok () }
  | todo + 1, s, w =>
    let r := s.echo T w mess
    let ev := Event.echo mess r.ops r.result
    match r.result with
    | .throws e => { self := r.self, world := r.world, events := [ev], result := .throws e }
    | .ok _ =>
      let rest := echo_loop T mess todo r.self r.world
      { rest with events := ev :: rest.events }

/-- The line written after `cnt` echoes of a message of `size` bytes. -/
def success_line (n size : Nat) : String :=
  "#" ++ toString n ++ ": " ++ toString cnt ++ " echos (size " ++ toString size
    ++ " bytes) received"

/-- The line written by the handler `catch (std::exception& e)`. -/
def error_line (n : Nat) (e : exception) : String :=
  "#" ++ toString n ++ ": " ++ "Exception: " ++ e.what

/-- The body of the loop `for (auto i : message_sizes)`: builds the message of
`i` bytes `'x'`, runs the echo loop inside `try`, and writes one line, in the
`try` block after the loop or in the handler. -/
def size_body (T : Transport σ) (n : Nat) (s : session) (w : σ) (i : Nat) : Work σ :=
  let mess : List Byte := List.replicate i 120
  let r := echo_loop T mess cnt s w
  match r.result with
  | .ok _ =>
    { r with events := r.events ++ [.line (success_line n mess.length)], result := .ok () }
  | .throws e =>
    { r with events := r.events ++ [.line (error_line n e)], result := .ok () }

/-- The loop `for (auto i : message_sizes)` over the sizes still to do.  The
events of each iteration are kept apart, in the order of the iterations. -/
def sizes_loop (T : Transport σ) (n : Nat) :
    List Nat → session → σ → σ × List (List Event)
  | [], _, w => (w, [])
  | i :: rest, s, w =>
    let r := size_body T n s w i
    let r2 := sizes_loop T n rest r.self r.world
    (r2.1, r.events :: r2.2)

/-- Outcome of `thread_func`: the transport state left, the events of each
iteration of the loop over the sizes, and the result. -/
structure ThreadRun (σ : Type) where
  world : σ
  iterations : List (List Event)
  result : Result Unit

/-- The member function `client::thread_func(n)`.  An exception of the
constructor of the session is outside every `try` and leaves the function. -/
def client.thread_func (T : Transport σ) (c : client) (n : Nat) (w : σ) : ThreadRun σ :=
  match session.construct T w c.address_ c.port_ with
  | (w1, .throws e) => { world := w1, iterations := [], result := .throws e }
  | (w1, .ok s) =>
    let r := sizes_loop T n message_sizes s w1
    { world := r.1, iterations := r.2, result := .ok () }

/-! ## `server` -/

/-- An asynchronous operation started on `socket_` whose handler has not run
yet.  `async_receive_from` is started on `buffer(buffer_)`, of the given
capacity; `async_send_to` on `buffer(buffer_, length)`, with a copy of
`sender_endpoint_` as destination. -/
inductive AsyncOp where
  | async_receive_from (capacity : Nat)
  | async_send_to (length : Nat) (destination : endpoint)
deriving DecidableEq, Repr

/-- State of a `server`: the members `sender_endpoint_` and `buffer_`, and the
operations of `socket_` held by `io_`. -/
structure server where
  sender_endpoint_ : endpoint
  buffer_ : List Byte
  pending : List AsyncOp
deriving DecidableEq, Repr

/-- The bytes `buffer(buffer_, length)` denotes: the first `length` bytes of
the buffer, all of it when `length` is larger. -/
def server.buffer_prefix (srv : server) (length : Nat) : List Byte :=
  srv.buffer_.take length

/-- The member function `server::receive()`: starts one `async_receive_from`
on the whole buffer. -/
def server.receive (srv : server) : server :=
  { srv with pending := srv.pending ++ [.async_receive_from srv.buffer_.length] }

/-- The member function `server::send(length)`: starts one `async_send_to` of
the first `length` bytes of the buffer to `sender_endpoint_`. -/
def server.send (srv : server) (length : Nat) : server :=
  { srv with pending := srv.pending ++ [.async_send_to length srv.sender_endpoint_] }

/-- Completion of an operation, as `io_` hands it to the handler: the error
code, the byte count, and for a receive what the socket stored. -/
inductive Completion where
  | receive_from (ec : error_code) (r : Received)
  | send_to (ec : error_code) (bytes_sent : Nat)
deriving DecidableEq, Repr

/-- The test `!ec`. -/
def error_code.is_success (ec : error_code) : Bool :=
  ec.value == 0

/-- Whether an operation is a receive. -/
def AsyncOp.is_receive : AsyncOp → Bool
  | .async_receive_from _ => true
  | .async_send_to _ _ => false

/-- Removes the oldest pending operation that satisfies `p`; `none` when there
is none. -/
def take_pending (p : AsyncOp → Bool) : List AsyncOp → Option (List AsyncOp)
  | [] => none
  | op :: rest =>
    if p op then some rest
    else (take_pending p rest).map (fun others => op :: others)

/-- One step of the server: an operation completes and its handler runs.
`none` when no operation of that kind is pending.

A receive without error has stored the data in `buffer_` and the sender in
`sender_endpoint_`; its handler calls `send(bytes_recvd)`, and `receive()` on
an error.  The handler of a send calls `receive()` whatever the error code. -/
def server.complete (srv : server) : Completion → Option server
  | .receive_from ec r =>
    match take_pending AsyncOp.is_receive srv.pending with
    | none => none
    | some others =>
      if ec.is_success then
        let srv1 : server :=
          { sender_endpoint_ := r.sender, buffer_ := store srv.buffer_ r.data,
            pending := others }
        some (srv1.send r.bytes_recvd)
      else
        some (server.receive { srv with pending := others })
  | .send_to _ _ =>
    match take_pending (fun op => !op.is_receive) srv.pending with
    | none => none
    | some others => some (server.receive { srv with pending := others })

/-- Runs the server over a sequence of completions. -/
def server.run_events (srv : server) : List Completion → Option server
  | [] => some srv
  | c :: rest =>
    match srv.complete c with
    | none => none
    | some srv1 => srv1.run_events rest

/-- The state of a server between two handlers: the buffer has its capacity,
and one operation is pending, a receive on the whole buffer or a send. -/
def server.Between (BUFFER_SIZE : Nat) (srv : server) : Prop :=
  srv.buffer_.length = BUFFER_SIZE ∧
    (srv.pending = [.async_receive_from BUFFER_SIZE] ∨
      ∃ length destination, srv.pending = [.async_send_to length destination])

/-! ## Startup: the constructor of `server`, and `main` -/

/-- Outcomes of the calls made during startup that can fail. -/
structure Startup where
  from_string : String → Except error_code address
  signals_add : Nat → Except error_code Unit
  socket_open : Except error_code Unit
  socket_set_option : Except error_code Unit
  socket_bind : endpoint → Except error_code Unit

/-- Signal number of `SIGINT`. -/
def SIGINT : Nat := 2

/-- Signal number of `SIGQUIT`. -/
def SIGQUIT : Nat := 3

/-- Signal number of `SIGTERM`. -/
def SIGTERM : Nat := 15

/-- The address `boost::asio::ip::udp::v6()` gives an endpoint. -/
def any_v6 : address := { is_v6 := true, bits := 0 }

/-- The constructor `server::server(port)` for the template argument
`BUFFER_SIZE`: adds the three signals, opens the socket, sets `reuse_address`,
binds, and calls `receive()`.  The first failing call throws.  The buffer is
not initialised: it holds `BUFFER_SIZE` bytes, those of `junk` as far as they
go.  The wait on the signals, whose handler stops `io_`, is not a socket
operation and is left out. -/
def server.construct (E : Startup) (BUFFER_SIZE : Nat) (junk : List Byte) (port : Nat) :
    Except error_code server := do
  E.signals_add SIGINT
  E.signals_add SIGTERM
  E.signals_add SIGQUIT
  let endpoint : endpoint := { addr := any_v6, port := port }
  E.socket_open
  E.socket_set_option
  E.socket_bind endpoint
  let srv : server :=
    { sender_endpoint_ := { addr := { is_v6 := false, bits := 0 }, port := 0 },
      buffer_ := store (List.replicate BUFFER_SIZE 0) junk,
      pending := [] }
  pure srv.receive

/-- What `main` does, as seen from outside. -/
inductive MainEvent where
  | server_loop
  | run_test
  | raise (signo : Nat)
  | join
  | cerr (text : String)
deriving DecidableEq, Repr

/-- Outcome of `main`: what it did, in order, and the value it returns. -/
structure Exit where
  events : List MainEvent
  status : Int
deriving DecidableEq, Repr

/-- The function `main`.  The `try` block parses the address, constructs the
server and the client, starts the thread that runs the server loop
`serv.run()`, runs the harness `cli.run_test()`, raises `SIGINT` and joins the
thread.  The handler writes the description of the exception to `std::cerr`.
The function ends with `return 0`.  The calls that can fail here are those of
the startup: parsing the address and constructing the server. -/
def main (E : Startup) (junk : List Byte) : Exit :=
  let body : Except error_code (List MainEvent) := do
    let port := 12122
    let addr ← E.from_string "::1"
    let _serv ← server.construct E 0x10000 junk port
    let _cli : client := { address_ := addr, port_ := port }
    pure [.server_loop, .run_test, .raise SIGINT, .join]
  match body with
  | .ok events => { events := events, status := 0 }
  | .error ec =>
    { events := [.cerr ("Exception: " ++ (exception.system_error ec).what)], status := 0 }

/-! ## Concrete networks

Two networks to run the program on.  They are used at concrete inputs only; the
theorems on the program hold for every `Transport`. -/

/-- An error code of a failed socket call. -/
def timed_out : error_code := { value := 110, what := "receive_from: Connection timed out" }

/-- An error code of a failed socket call. -/
def unreachable : error_code := { value := 101, what := "send_to: Network is unreachable" }

/-- An error code of a failed `bind`. -/
def address_in_use : error_code := { value := 98, what := "bind: Address already in use" }

/-- A network in which every peer echoes.  The state is the queue of the
datagrams on their way to the socket, each with its sender.  A send to `dest`
puts the datagram sent at the end of the queue, with sender `dest`.  A receive
takes the first datagram, stores as much of it as the buffer holds, and returns
the number of bytes stored; with nothing under way it fails. -/
def loopback : Transport (List (endpoint × List Byte)) where
  open_socket w := (w, .ok ())
  send_to w data dest := (w ++ [(dest, data)], .ok data.length)
  receive_from w capacity :=
    match w with
    | [] => (w, .error timed_out)
    | (sender, d) :: rest =>
      (rest, .ok { sender := sender, bytes_recvd := min d.length capacity,
                   data := d.take capacity })

/-- State of a network that follows a script: the outcomes of the sends and of
the receives to come. -/
structure Script where
  sends : List (Except error_code Nat)
  receives : List (Except error_code Received)

/-- A network that follows a script.  When the script of the sends is used up
a send succeeds; when the script of the receives is used up a receive fails. -/
def scripted : Transport Script where
  open_socket w := (w, .ok ())
  send_to w data _ :=
    match w.sends with
    | [] => (w, .ok data.length)
    | outcome :: rest => ({ w with sends := rest }, outcome)
  receive_from w _ :=
    match w.receives with
    | [] => (w, .error timed_out)
    | outcome :: rest => ({ w with receives := rest }, outcome)

/-- The endpoint `[::1]:12122` of the server. -/
def server_endpoint : endpoint := { addr := { is_v6 := true, bits := 1 }, port := 12122 }

/-- Another endpoint, `[::1]:40000`. -/
def other_endpoint : endpoint := { addr := { is_v6 := true, bits := 1 }, port := 40000 }

/-- A startup in which every call succeeds and the address parses to `::1`. -/
def startup_ok : Startup where
  from_string _ := .ok { is_v6 := true, bits := 1 }
  signals_add _ := .ok ()
  socket_open := .ok ()
  socket_set_option := .ok ()
  socket_bind _ := .ok ()

/-- A startup in which `bind` fails because the port is taken. -/
def startup_bind_fails : Startup :=
  { startup_ok with socket_bind := fun _ => .error address_in_use }

/-- The error code of a completion without error. -/
def success : error_code := { value := 0, what := "Success" }

/-- A sequence of completions: a receive of two bytes, the completion of their
send with an error, a failed receive, and a receive of one byte. -/
def sample_completions : List Completion :=
  [.receive_from success { sender := other_endpoint, bytes_recvd := 2, data := [7, 8] },
   .send_to unreachable 0,
   .receive_from timed_out { sender := other_endpoint, bytes_recvd := 0, data := [] },
   .receive_from success { sender := server_endpoint, bytes_recvd := 1, data := [9] }]

/-! ## Lemmas on `store` -/

theorem store_nil (buf : List Byte) : store buf [] = buf := by
  simp [store]

theorem store_nil_buf (data : List Byte) : store [] data = [] := by
  simp [store]

theorem store_cons (x d : Byte) (xs ds : List Byte) :
    store (x :: xs) (d :: ds) = d :: store xs ds := by
  simp [store]

theorem length_store (buf data : List Byte) : (store buf data).length = buf.length := by
  simp only [store, List.length_take, List.length_append, List.length_drop]
  omega

/-- A receive leaves the buffer as it was exactly when every stored byte equals
the byte it replaces. -/
theorem store_eq_self_iff (buf data : List Byte) :
    store buf data = buf ↔
      ∀ i (hd : i < data.length) (hb : i < buf.length), data[i] = buf[i] := by
  induction data generalizing buf with
  | nil => simp [store_nil]
  | cons d ds ih =>
    cases buf with
    | nil => simp [store_nil_buf]
    | cons x xs =>
      rw [store_cons, List.cons.injEq, ih xs]
      constructor
      · rintro ⟨hdx, h⟩ i hd hb
        cases i with
        | zero => simpa using hdx
        | succ j =>
          simp only [List.length_cons, Nat.add_lt_add_iff_right] at hd hb
          simpa using h j hd hb
      · intro h
        refine ⟨by simpa using h 0 (by simp) (by simp), fun i hd hb => ?_⟩
        simpa using h (i + 1) (by simpa using hd) (by simpa using hb)

/-- Storing a list of the length of the buffer replaces the buffer. -/
theorem store_of_length_eq (buf data : List Byte) (h : data.length = buf.length) :
    store buf data = data := by
  simp [store, ← h]

/-! ## `session::echo` -/

/-- The result of `echo` when the send and the receive succeed. -/
theorem echo_result_of_received (T : Transport σ) (s : session) (w w1 w2 : σ)
    (request : List Byte) (sent : Nat) (r : Received)
    (hsend : T.send_to w request s.endpoint_ = (w1, .ok sent))
    (hrecv : T.receive_from w1 request.length = (w2, .ok r)) :
    (s.echo T w request).result =
      if r.bytes_recvd ≠ request.length then .throws size_error
      else if store request r.data ≠ request then .throws data_error
      else .ok () := by
  simp only [session.echo, hsend, hrecv]
  split_ifs <;> rfl

/-- C1: when the send and the single receive of `session::echo` succeed, with
`r.bytes_recvd` the count returned and `r.data` the bytes stored in the reply
buffer of capacity `|request|`, `echo` returns normally if and only if the
count equals `|request|` and every stored byte equals the byte of the request
at its position; for a receive that stored as many bytes as it returned that is
`r.data = request`; in every other case `echo` throws. -/
theorem echo_returns_iff_reply_faithful (T : Transport σ) (s : session) (w w1 w2 : σ)
    (request : List Byte) (sent : Nat) (r : Received)
    (hsend : T.send_to w request s.endpoint_ = (w1, .ok sent))
    (hrecv : T.receive_from w1 request.length = (w2, .ok r)) :
    ((s.echo T w request).result = .ok () ↔
      r.bytes_recvd = request.length ∧
        ∀ i (hd : i < r.data.length) (hb : i < request.length), r.data[i] = request[i]) ∧
    (r.data.length = r.bytes_recvd →
      ((s.echo T w request).result = .ok () ↔ r.data = request)) ∧
    ((s.echo T w request).result ≠ .ok () →
      ∃ e, (s.echo T w request).result = .throws e) := by
  have hres := echo_result_of_received T s w w1 w2 request sent r hsend hrecv
  have key : (s.echo T w request).result = .ok () ↔
      r.bytes_recvd = request.length ∧ store request r.data = request := by
    rw [hres]
    split_ifs with h1 h2
    · simp [h1]
    · simp [h2]
    · simp only [ne_eq, not_not] at h1 h2
      simp [h1, h2]
  refine ⟨?_, ?_, ?_⟩
  · rw [key, store_eq_self_iff]
  · intro hlen
    rw [key]
    constructor
    · rintro ⟨hn, hst⟩
      rw [store_of_length_eq request r.data (hlen.trans hn)] at hst
      exact hst
    · intro hd
      refine ⟨?_, ?_⟩
      · rw [← hlen, hd]
      · rw [hd, store_of_length_eq request request rfl]
  · intro hne
    cases hr : (s.echo T w request).result with
    | ok v => cases v; exact absurd hr hne
    | throws e => exact ⟨e, rfl⟩

/-- C1, at a concrete input: the request `[1, 2, 3]` sent into the echoing
network comes back whole, and `echo` returns. -/
theorem echo_returns_iff_reply_faithful_witness :
    (session.echo loopback { endpoint_ := server_endpoint } [] [1, 2, 3]).result = .ok () :=
  ((echo_returns_iff_reply_faithful loopback { endpoint_ := server_endpoint } []
      [(server_endpoint, [1, 2, 3])] [] [1, 2, 3] 3
      { sender := server_endpoint, bytes_recvd := 3, data := [1, 2, 3] } rfl rfl).2.1 rfl).2 rfl

/-- C2: when the send and the receive of `session::echo` succeed, a returned
count other than `|request|` makes `echo` throw the size error, whatever was
stored, in particular for a reply one byte shorter than the request that is the
start of the request; a returned count of `|request|` with a stored byte that
differs from the request at its position makes `echo` throw the data error. -/
theorem echo_classifies_length_then_content (T : Transport σ) (s : session) (w w1 w2 : σ)
    (request : List Byte) (sent : Nat) (r : Received)
    (hsend : T.send_to w request s.endpoint_ = (w1, .ok sent))
    (hrecv : T.receive_from w1 request.length = (w2, .ok r)) :
    (r.bytes_recvd ≠ request.length →
      (s.echo T w request).result =
        .throws (.logic_error "Different size of reply and request")) ∧
    (r.bytes_recvd + 1 = request.length → r.data = request.take r.bytes_recvd →
      (s.echo T w request).result =
        .throws (.logic_error "Different size of reply and request")) ∧
    (r.bytes_recvd = request.length →
      (∃ i, ∃ (hd : i < r.data.length) (hb : i < request.length), r.data[i] ≠ request[i]) →
      (s.echo T w request).result =
        .throws (.logic_error "Different data value of request and reply")) := by
  have hres := echo_result_of_received T s w w1 w2 request sent r hsend hrecv
  refine ⟨?_, ?_, ?_⟩
  · intro hn
    rw [hres, if_pos hn]
    rfl
  · intro hn _
    rw [hres, if_pos (by omega)]
    rfl
  · rintro hn ⟨i, hd, hb, hne⟩
    have hst : store request r.data ≠ request := by
      intro h
      exact hne ((store_eq_self_iff request r.data).1 h i hd hb)
    rw [hres, if_neg (by simpa using hn), if_pos hst]
    rfl

/-- C2, at concrete inputs: for the request `[1, 2, 3]`, the reply `[1, 2]`
gives the size error and the reply `[1, 9, 3]` the data error. -/
theorem echo_classifies_length_then_content_witness :
    (session.echo scripted { endpoint_ := server_endpoint }
        { sends := [], receives := [.ok { sender := server_endpoint, bytes_recvd := 2,
                                          data := [1, 2] }] } [1, 2, 3]).result =
      .throws (.logic_error "Different size of reply and request") ∧
    (session.echo scripted { endpoint_ := server_endpoint }
        { sends := [], receives := [.ok { sender := server_endpoint, bytes_recvd := 3,
                                          data := [1, 9, 3] }] } [1, 2, 3]).result =
      .throws (.logic_error "Different data value of request and reply") :=
  ⟨(echo_classifies_length_then_content scripted { endpoint_ := server_endpoint }
      { sends := [], receives := [.ok { sender := server_endpoint, bytes_recvd := 2,
                                        data := [1, 2] }] }
      { sends := [], receives := [.ok { sender := server_endpoint, bytes_recvd := 2,
                                        data := [1, 2] }] }
      { sends := [], receives := [] } [1, 2, 3] 3
      { sender := server_endpoint, bytes_recvd := 2, data := [1, 2] } rfl rfl).2.1 rfl rfl,
   (echo_classifies_length_then_content scripted { endpoint_ := server_endpoint }
      { sends := [], receives := [.ok { sender := server_endpoint, bytes_recvd := 3,
                                        data := [1, 9, 3] }] }
      { sends := [], receives := [.ok { sender := server_endpoint, bytes_recvd := 3,
                                        data := [1, 9, 3] }] }
      { sends := [], receives := [] } [1, 2, 3] 3
      { sender := server_endpoint, bytes_recvd := 3, data := [1, 9, 3] } rfl rfl).2.2 rfl
      ⟨1, by decide, by decide, by decide⟩⟩

/-- C8: `session::echo` performs exactly one send; if the send fails it
performs nothing else and throws the `system_error` of that error code; if the
send succeeds it performs exactly one receive after it and nothing else; if
that receive fails it throws the `system_error` of that error code.  The
exception of a transport failure is neither the size error nor the data
error. -/
theorem echo_propagates_transport_failure (T : Transport σ) (s : session) (w : σ)
    (request : List Byte) :
    (∀ w1 ec, T.send_to w request s.endpoint_ = (w1, .error ec) →
      (s.echo T w request).result = .throws (.system_error ec) ∧
      (s.echo T w request).ops = [.send_to request s.endpoint_] ∧
      (s.echo T w request).world = w1) ∧
    (∀ w1 sent w2 outcome, T.send_to w request s.endpoint_ = (w1, .ok sent) →
      T.receive_from w1 request.length = (w2, outcome) →
      (s.echo T w request).ops =
        [.send_to request s.endpoint_, .receive_from request.length] ∧
      (s.echo T w request).world = w2) ∧
    (∀ w1 sent w2 ec, T.send_to w request s.endpoint_ = (w1, .ok sent) →
      T.receive_from w1 request.length = (w2, .error ec) →
      (s.echo T w request).result = .throws (.system_error ec)) ∧
    (∀ ec, exception.system_error ec ≠ size_error ∧
      exception.system_error ec ≠ data_error) := by
  refine ⟨?_, ?_, ?_, ?_⟩
  · intro w1 ec hsend
    simp [session.echo, hsend]
  · intro w1 sent w2 outcome hsend hrecv
    cases outcome with
    | error ec => simp [session.echo, hsend, hrecv]
    | ok r =>
      simp only [session.echo, hsend, hrecv]
      split_ifs <;> simp
  · intro w1 sent w2 ec hsend hrecv
    simp [session.echo, hsend, hrecv]
  · intro ec
    simp [size_error, data_error]

/-- C8, at concrete inputs: a send that fails with "Network is unreachable" and
a receive that fails with "Connection timed out" each end `echo` with that
error. -/
theorem echo_propagates_transport_failure_witness :
    (session.echo scripted { endpoint_ := server_endpoint }
        { sends := [.error unreachable], receives := [] } [1, 2, 3]).result =
      .throws (.system_error unreachable) ∧
    (session.echo scripted { endpoint_ := server_endpoint }
        { sends := [], receives := [.error timed_out] } [1, 2, 3]).result =
      .throws (.system_error timed_out) :=
  ⟨((echo_propagates_transport_failure scripted { endpoint_ := server_endpoint }
      { sends := [.error unreachable], receives := [] } [1, 2, 3]).1
      { sends := [], receives := [] } unreachable rfl).1,
   (echo_propagates_transport_failure scripted { endpoint_ := server_endpoint }
      { sends := [], receives := [.error timed_out] } [1, 2, 3]).2.2.1
      { sends := [], receives := [.error timed_out] } 3
      { sends := [], receives := [] } timed_out rfl rfl⟩

/-- C10: under a transport whose receive stores the first `min |d| capacity`
bytes of the arriving datagram `d` and returns the number of bytes stored, a
datagram strictly longer than the request whose first `|request|` bytes are
the request makes `session::echo` return normally. -/
theorem echo_accepts_truncated_long_reply (T : Transport σ) (s : session) (w w1 w2 : σ)
    (request d : List Byte) (sent : Nat) (sender : endpoint)
    (hsend : T.send_to w request s.endpoint_ = (w1, .ok sent))
    (hrecv : T.receive_from w1 request.length =
      (w2, .ok { sender := sender, bytes_recvd := min d.length request.length,
                 data := d.take request.length }))
    (hlong : request.length < d.length)
    (hstart : d.take request.length = request) :
    (s.echo T w request).result = .ok () := by
  rw [echo_result_of_received T s w w1 w2 request sent _ hsend hrecv]
  have h1 : min d.length request.length = request.length := by omega
  have h2 : store request (d.take request.length) = request := by
    rw [hstart, store_of_length_eq request request rfl]
  simp [h1, h2]

/-- C10, at a concrete input: the request `[1, 2, 3]` answered by the datagram
`[1, 2, 3, 4, 5]` on the truncating network `loopback`. -/
theorem echo_accepts_truncated_long_reply_witness :
    (session.echo loopback { endpoint_ := server_endpoint }
        [(server_endpoint, [1, 2, 3, 4, 5])] [1, 2, 3]).result = .ok () :=
  echo_accepts_truncated_long_reply loopback { endpoint_ := server_endpoint }
    [(server_endpoint, [1, 2, 3, 4, 5])]
    [(server_endpoint, [1, 2, 3, 4, 5]), (server_endpoint, [1, 2, 3])]
    [(server_endpoint, [1, 2, 3])] [1, 2, 3] [1, 2, 3, 4, 5] 3 server_endpoint
    rfl rfl (by decide) rfl

/-! ## The server loop -/

theorem take_store_of_le (buf m : List Byte) (h : m.length ≤ buf.length) :
    (store buf m).take m.length = m := by
  simp [store, List.take_take, Nat.min_eq_left h]

/-- C3: a server awaiting a receive on its buffer of 0x10000 bytes, to which a
datagram `m` of at most 0x10000 bytes from sender `s` is delivered without
error, next issues one send: of `|m|` bytes, which are the bytes of `m`, to
`s`.  For the empty datagram the send is of zero bytes. -/
theorem server_echoes_datagram (srv : server) (m : List Byte) (s : endpoint)
    (ec : error_code) (hec : ec.is_success = true)
    (hcap : srv.buffer_.length = 0x10000)
    (hwait : srv.pending = [.async_receive_from 0x10000])
    (hm : m.length ≤ 0x10000) :
    ∃ srv1,
      srv.complete (.receive_from ec { sender := s, bytes_recvd := m.length, data := m })
        = some srv1 ∧
      srv1.pending = [.async_send_to m.length s] ∧
      srv1.buffer_prefix m.length = m ∧
      (m = [] → srv1.pending = [.async_send_to 0 s] ∧ srv1.buffer_prefix 0 = []) := by
  refine ⟨_, by simp [server.complete, hwait, take_pending, AsyncOp.is_receive, hec]; rfl,
    ?_, ?_, ?_⟩
  · simp [server.send]
  · simp only [server.send, server.buffer_prefix]
    exact take_store_of_le _ _ (by omega)
  · intro hnil
    subst hnil
    simp [server.send, server.buffer_prefix]

/-- C3, at a concrete input: the datagram `[1, 2, 3]` from `[::1]:40000`. -/
theorem server_echoes_datagram_witness :
    ∃ srv1,
      server.complete
          { sender_endpoint_ := server_endpoint, buffer_ := List.replicate 0x10000 0,
            pending := [.async_receive_from 0x10000] }
          (.receive_from success
            { sender := other_endpoint, bytes_recvd := [1, 2, 3].length, data := [1, 2, 3] })
        = some srv1 ∧
      srv1.pending = [.async_send_to [1, 2, 3].length other_endpoint] ∧
      srv1.buffer_prefix [1, 2, 3].length = [1, 2, 3] ∧
      (([1, 2, 3] : List Byte) = [] →
        srv1.pending = [.async_send_to 0 other_endpoint] ∧ srv1.buffer_prefix 0 = []) :=
  server_echoes_datagram
    { sender_endpoint_ := server_endpoint, buffer_ := List.replicate 0x10000 0,
      pending := [.async_receive_from 0x10000] }
    [1, 2, 3] other_endpoint success rfl (List.length_replicate _ _) rfl (by decide)

theorem server.between_construct (E : Startup) (B : Nat) (junk : List Byte) (port : Nat)
    (srv0 : server) (h0 : server.construct E B junk port = .ok srv0) :
    srv0.Between B ∧ srv0.pending = [.async_receive_from B] := by
  simp only [server.construct, bind, Except.bind] at h0
  split at h0 <;> try contradiction
  split at h0 <;> try contradiction
  split at h0 <;> try contradiction
  split at h0 <;> try contradiction
  split at h0 <;> try contradiction
  split at h0 <;> try contradiction
  simp only [pure, Except.pure, Except.ok.injEq] at h0
  subst h0
  simp [server.Between, server.receive, length_store]

/-- What a completion does in a state between two handlers. -/
theorem server.complete_between (B : Nat) (srv srv1 : server) (c : Completion)
    (hb : srv.Between B) (hc : srv.complete c = some srv1) :
    srv1.Between B ∧
    (match c with
      | .receive_from ec r =>
        srv.pending = [.async_receive_from B] ∧
        (if ec.is_success then srv1.pending = [.async_send_to r.bytes_recvd r.sender]
          else srv1.pending = [.async_receive_from B])
      | .send_to _ _ =>
        (∃ length destination, srv.pending = [.async_send_to length destination]) ∧
        srv1.pending = [.async_receive_from B]) := by
  obtain ⟨hlen, hp | ⟨length, destination, hp⟩⟩ := hb
  · cases c with
    | receive_from ec r =>
      simp only [server.complete, hp, take_pending, AsyncOp.is_receive, if_true] at hc
      by_cases hec : ec.is_success = true
      · simp only [hec, if_true, Option.some.injEq] at hc
        subst hc
        simp [server.Between, server.send, length_store, hlen, hp, hec]
      · simp only [hec, Bool.false_eq_true, if_false, Option.some.injEq] at hc
        subst hc
        simp [server.Between, server.receive, hlen, hp, hec]
    | send_to ec n =>
      simp [server.complete, hp, take_pending, AsyncOp.is_receive] at hc
  · cases c with
    | receive_from ec r =>
      simp [server.complete, hp, take_pending, AsyncOp.is_receive] at hc
    | send_to ec n =>
      simp only [server.complete, hp, take_pending, AsyncOp.is_receive, Bool.not_false,
        if_true, Option.some.injEq] at hc
      subst hc
      simp [server.Between, server.receive, hlen, hp]

theorem server.run_events_append (srv : server) (evs : List Completion) (c : Completion) :
    srv.run_events (evs ++ [c]) = (srv.run_events evs).bind (fun mid => mid.complete c) := by
  induction evs generalizing srv with
  | nil =>
    simp only [List.nil_append, server.run_events, Option.some_bind]
    cases srv.complete c <;> rfl
  | cons e rest ih =>
    simp only [List.cons_append, server.run_events]
    cases srv.complete e with
    | none => rfl
    | some srv1 => exact ih srv1

theorem server.between_run_events (B : Nat) (srv0 srv : server) (evs : List Completion)
    (hb : srv0.Between B) (hrun : srv0.run_events evs = some srv) : srv.Between B := by
  induction evs generalizing srv0 with
  | nil =>
    simp only [server.run_events, Option.some.injEq] at hrun
    exact hrun ▸ hb
  | cons e rest ih =>
    simp only [server.run_events] at hrun
    cases hc : srv0.complete e with
    | none => simp [hc] at hrun
    | some srv1 =>
      rw [hc] at hrun
      exact ih srv1 (server.complete_between B srv0 srv1 e hb hc).1 hrun

/-- C7: in every state the server reaches from its construction by completions
of its pending operations, exactly one socket operation is pending, and a
completion of that operation can be taken.  The state after construction
awaits a receive.  A receive completed without error leads to one pending send
of the bytes received to their sender; a receive completed with an error leads
to one pending receive; a send completed with or without error leads to one
pending receive.  The pending operation is a send only when the last completion
was a receive without error. -/
theorem server_single_pending_operation (E : Startup) (B : Nat) (junk : List Byte)
    (port : Nat) (srv0 srv : server) (evs : List Completion)
    (h0 : server.construct E B junk port = .ok srv0)
    (hrun : srv0.run_events evs = some srv) :
    srv0.pending = [.async_receive_from B] ∧
    srv.pending.length = 1 ∧
    ((∀ ec r, (srv.complete (.receive_from ec r)).isSome) ∨
      (∀ ec n, (srv.complete (.send_to ec n)).isSome)) ∧
    (∀ ec r srv1, srv.complete (.receive_from ec r) = some srv1 →
      (ec.is_success = true → srv1.pending = [.async_send_to r.bytes_recvd r.sender]) ∧
      (ec.is_success = false → srv1.pending = [.async_receive_from B])) ∧
    (∀ ec n srv1, srv.complete (.send_to ec n) = some srv1 →
      srv1.pending = [.async_receive_from B]) ∧
    (∀ length destination, srv.pending = [.async_send_to length destination] →
      ∃ before ec r, evs = before ++ [.receive_from ec r] ∧ ec.is_success = true ∧
        length = r.bytes_recvd ∧ destination = r.sender) := by
  obtain ⟨hb0, hp0⟩ := server.between_construct E B junk port srv0 h0
  have hb : srv.Between B := server.between_run_events B srv0 srv evs hb0 hrun
  refine ⟨hp0, ?_, ?_, ?_, ?_, ?_⟩
  · obtain ⟨_, hp | ⟨length, destination, hp⟩⟩ := hb <;> simp [hp]
  · obtain ⟨_, hp | ⟨length, destination, hp⟩⟩ := hb
    · left
      intro ec r
      simp only [server.complete, hp, take_pending, AsyncOp.is_receive, if_true]
      split_ifs <;> rfl
    · right
      intro ec n
      simp [server.complete, hp, take_pending, AsyncOp.is_receive]
  · intro ec r srv1 hc
    have h := (server.complete_between B srv srv1 _ hb hc).2
    simp only at h
    constructor
    · intro hec
      simpa [hec] using h.2
    · intro hec
      simpa [hec] using h.2
  · intro ec n srv1 hc
    exact (server.complete_between B srv srv1 _ hb hc).2.2
  · intro length destination hp
    rcases List.eq_nil_or_concat evs with hnil | ⟨before, c, hevs⟩
    · subst hnil
      simp only [server.run_events, Option.some.injEq] at hrun
      subst hrun
      rw [hp0] at hp
      simp at hp
    · rw [List.concat_eq_append] at hevs
      subst hevs
      rw [server.run_events_append] at hrun
      cases hmid : srv0.run_events before with
      | none => simp [hmid] at hrun
      | some mid =>
        rw [hmid, Option.some_bind] at hrun
        have hbm := server.between_run_events B srv0 mid before hb0 hmid
        have h := (server.complete_between B mid srv c hbm hrun).2
        cases c with
        | receive_from ec r =>
          simp only at h
          by_cases hec : ec.is_success = true
          · simp only [hec, if_true] at h
            rw [h.2] at hp
            simp only [List.cons.injEq, AsyncOp.async_send_to.injEq, and_true] at hp
            exact ⟨before, ec, r, rfl, hec, hp.1.symm, hp.2.symm⟩
          · simp only [hec, Bool.false_eq_true, if_false] at h
            rw [h.2] at hp
            simp at hp
        | send_to ec n =>
          simp only at h
          rw [h.2] at hp
          simp at hp

/-- C7, at a concrete input: a server with a buffer of 4 bytes after a receive
of two bytes, the completion of their send, a failed receive and a receive of
one byte has one operation pending, the send of that byte. -/
theorem server_single_pending_operation_witness :
    ∃ srv0 srv,
      server.construct startup_ok 4 [] 12122 = .ok srv0 ∧
      srv0.run_events sample_completions = some srv ∧
      srv.pending = [.async_send_to 1 server_endpoint] ∧
      srv.buffer_ = [9, 8, 0, 0] ∧
      srv.pending.length = 1 := by
  refine ⟨_, _, rfl, rfl, rfl, rfl, ?_⟩
  exact (server_single_pending_operation startup_ok 4 [] 12122 _ _ sample_completions
    rfl rfl).2.1

/-! ## Startup -/

/-- The constructor of the server throws when `open`, `set_option` or `bind`
fails. -/
theorem server.construct_fails (E : Startup) (B : Nat) (junk : List Byte) (port : Nat)
    (ec : error_code)
    (hsig : ∀ signo, E.signals_add signo = .ok ())
    (h : E.socket_open = .error ec ∨
      (E.socket_open = .ok () ∧ E.socket_set_option = .error ec) ∨
      (E.socket_open = .ok () ∧ E.socket_set_option = .ok () ∧
        E.socket_bind { addr := any_v6, port := port } = .error ec)) :
    server.construct E B junk port = .error ec := by
  rcases h with h | ⟨h1, h2⟩ | ⟨h1, h2, h3⟩
  · simp [server.construct, hsig, h, bind, Except.bind]
  · simp [server.construct, hsig, h1, h2, bind, Except.bind]
  · simp [server.construct, hsig, h1, h2, h3, bind, Except.bind]

/-- C6, as the code has it: when parsing the address fails, or the address
parses and constructing the server fails, `main` writes the description of the
failure to `std::cerr` and does nothing else, so it runs neither the server
loop nor the harness, and it returns 0. -/
theorem main_reports_startup_failure_returns_zero (E : Startup) (junk : List Byte)
    (ec : error_code)
    (hfail : E.from_string "::1" = .error ec ∨
      ((∃ a, E.from_string "::1" = .ok a) ∧
        server.construct E 0x10000 junk 12122 = .error ec)) :
    (main E junk).events = [.cerr ("Exception: " ++ ec.what)] ∧
    MainEvent.server_loop ∉ (main E junk).events ∧
    MainEvent.run_test ∉ (main E junk).events ∧
    (main E junk).status = 0 := by
  have hmain : main E junk =
      { events := [.cerr ("Exception: " ++ ec.what)], status := 0 } := by
    rcases hfail with h | ⟨⟨a, ha⟩, h⟩
    · simp [main, h, bind, Except.bind, exception.what]
    · simp [main, ha, h, bind, Except.bind, exception.what]
  rw [hmain]
  simp

/-- C6, as the code has it, at a concrete input: `bind` fails with "Address
already in use". -/
theorem main_reports_startup_failure_returns_zero_witness :
    (main startup_bind_fails []).events = [.cerr "Exception: bind: Address already in use"] ∧
    (main startup_bind_fails []).status = 0 :=
  have h := main_reports_startup_failure_returns_zero startup_bind_fails [] address_in_use
    (Or.inr ⟨⟨_, rfl⟩, rfl⟩)
  ⟨h.1, h.2.2.2⟩

/-- C6 as stated fails: when `bind` fails the constructor of the server throws,
and `main` returns 0. -/
theorem main_exit_status_counterexample :
    server.construct startup_bind_fails 0x10000 [] 12122 = .error address_in_use ∧
    ¬ ((main startup_bind_fails []).status ≠ 0) :=
  ⟨rfl, fun h => h rfl⟩

/-! ## The remote endpoint of a session -/

/-- After a receive without error the member `endpoint_` is the sender of the
datagram received. -/
theorem echo_endpoint_of_received (T : Transport σ) (s : session) (w w1 w2 : σ)
    (request : List Byte) (sent : Nat) (r : Received)
    (hsend : T.send_to w request s.endpoint_ = (w1, .ok sent))
    (hrecv : T.receive_from w1 request.length = (w2, .ok r)) :
    (s.echo T w request).self.endpoint_ = r.sender := by
  simp only [session.echo, hsend, hrecv]
  split_ifs <;> rfl

/-- C5, the code at a failing input: a session constructed for `[::1]:12122`
sends `[1, 2, 3]` while a datagram `[1, 2, 3]` from `[::1]:40000` is on its way
to the socket.  `echo` returns normally, the member `endpoint_` is then
`[::1]:40000`, and the next `echo` sends its request to `[::1]:40000`. -/
theorem echo_overwrites_remote_endpoint :
    session.construct loopback [(other_endpoint, [1, 2, 3])] server_endpoint.addr 12122 =
      ([(other_endpoint, [1, 2, 3])], .ok { endpoint_ := server_endpoint }) ∧
    (session.echo loopback { endpoint_ := server_endpoint }
      [(other_endpoint, [1, 2, 3])] [1, 2, 3]).result = .ok () ∧
    (session.echo loopback { endpoint_ := server_endpoint }
      [(other_endpoint, [1, 2, 3])] [1, 2, 3]).self.endpoint_ = other_endpoint ∧
    other_endpoint ≠ server_endpoint ∧
    (session.echo loopback
      (session.echo loopback { endpoint_ := server_endpoint }
        [(other_endpoint, [1, 2, 3])] [1, 2, 3]).self
      (session.echo loopback { endpoint_ := server_endpoint }
        [(other_endpoint, [1, 2, 3])] [1, 2, 3]).world [4]).ops =
      [.send_to [4] other_endpoint, .receive_from 1] :=
  ⟨rfl, rfl, rfl, by decide, rfl⟩

/-! ## The worker -/

theorem toString_cnt : toString cnt = "10240" := by decide

/-- The success line, as it reads. -/
theorem success_line_eq (n size : Nat) :
    success_line n size =
      "#" ++ toString n ++ ": 10240 echos (size " ++ toString size ++ " bytes) received" := by
  simp only [success_line, toString_cnt, String.append_assoc]
  rfl

/-- The success line of the size 6432, as it reads. -/
theorem success_line_6432 (n : Nat) :
    "#" ++ toString n ++ ": 10240 echos (size " ++ toString 6432 ++ " bytes) received" =
      "#" ++ toString n ++ ": 10240 echos (size 6432 bytes) received" := by
  have h : toString (6432 : Nat) = "6432" := by decide
  simp only [h, String.append_assoc]
  rfl

/-- The echo loop either makes all its calls, which all return, or stops at the
first call that throws, with the exception of that call. -/
theorem echo_loop_shape (T : Transport σ) (mess : List Byte) (todo : Nat) (s : session)
    (w : σ) :
    ((echo_loop T mess todo s w).result = .ok () ∧
      ∃ opss : List (List SocketOp), opss.length = todo ∧
        (echo_loop T mess todo s w).events =
          opss.map (fun ops => Event.echo mess ops (.ok ()))) ∨
    (∃ (e : exception) (opss : List (List SocketOp)) (ops : List SocketOp),
      (echo_loop T mess todo s w).result = .throws e ∧ opss.length < todo ∧
      (echo_loop T mess todo s w).events =
        opss.map (fun ops => Event.echo mess ops (.ok ())) ++
          [.echo mess ops (.throws e)]) := by
  induction todo generalizing s w with
  | zero => exact Or.inl ⟨rfl, [], rfl, rfl⟩
  | succ k ih =>
    cases hr : (s.echo T w mess).result with
    | throws e =>
      refine Or.inr ⟨e, [], (s.echo T w mess).ops, ?_, by simp, ?_⟩
      · simp [echo_loop, hr]
      · simp [echo_loop, hr]
    | ok u =>
      cases u
      rcases ih (s.echo T w mess).self (s.echo T w mess).world with
        ⟨hres, opss, hlen, hev⟩ | ⟨e, opss, ops, hres, hlen, hev⟩
      · refine Or.inl ⟨?_, (s.echo T w mess).ops :: opss, by simp [hlen], ?_⟩
        · simp [echo_loop, hr, hres]
        · simp [echo_loop, hr, hev]
      · refine Or.inr ⟨e, (s.echo T w mess).ops :: opss, ops, ?_, by simp [hlen], ?_⟩
        · simp [echo_loop, hr, hres]
        · simp [echo_loop, hr, hev]

/-- The events of one size: `cnt` calls that return and the success line, or
calls that return, the first call that throws, and the error line of its
exception. -/
theorem size_body_shape (T : Transport σ) (n : Nat) (s : session) (w : σ) (i : Nat) :
    (∃ opss : List (List SocketOp), opss.length = cnt ∧
      (size_body T n s w i).events =
        opss.map (fun ops => Event.echo (List.replicate i 120) ops (.ok ())) ++
          [.line (success_line n i)]) ∨
    (∃ (e : exception) (opss : List (List SocketOp)) (ops : List SocketOp),
      opss.length < cnt ∧
      (size_body T n s w i).events =
        opss.map (fun ops => Event.echo (List.replicate i 120) ops (.ok ())) ++
          [.echo (List.replicate i 120) ops (.throws e), .line (error_line n e)]) := by
  rcases echo_loop_shape T (List.replicate i 120) cnt s w with
    ⟨hres, opss, hlen, hev⟩ | ⟨e, opss, ops, hres, hlen, hev⟩
  · refine Or.inl ⟨opss, hlen, ?_⟩
    simp [size_body, hres, hev]
  · refine Or.inr ⟨e, opss, ops, hlen, ?_⟩
    simp [size_body, hres, hev]

/-- The loop over the sizes runs the body once for each size, in order. -/
theorem sizes_loop_iterations (T : Transport σ) (n : Nat) (sizes : List Nat) (s : session)
    (w : σ) :
    (sizes_loop T n sizes s w).2.length = sizes.length ∧
    ∀ (i S : Nat) (seg : List Event), sizes[i]? = some S →
      (sizes_loop T n sizes s w).2[i]? = some seg →
      ∃ s1 w1, seg = (size_body T n s1 w1 S).events := by
  induction sizes generalizing s w with
  | nil => simp [sizes_loop]
  | cons S0 rest ih =>
    obtain ⟨hlen, hget⟩ := ih (size_body T n s w S0).self (size_body T n s w S0).world
    refine ⟨by simp [sizes_loop, hlen], ?_⟩
    intro i S seg hS hseg
    cases i with
    | zero =>
      simp only [List.getElem?_cons_zero, Option.some.injEq] at hS
      simp only [sizes_loop, List.getElem?_cons_zero, Option.some.injEq] at hseg
      exact ⟨s, w, by rw [← hseg, ← hS]⟩
    | succ j =>
      simp only [List.getElem?_cons_succ] at hS
      simp only [sizes_loop, List.getElem?_cons_succ] at hseg
      exact hget j S seg hS hseg

/-- The iterations of `thread_func` once the session is constructed. -/
theorem thread_func_iterations (T : Transport σ) (c : client) (n : Nat) (w w1 : σ)
    (hopen : T.open_socket w = (w1, .ok ())) :
    (client.thread_func T c n w).iterations =
      (sizes_loop T n message_sizes { endpoint_ := { addr := c.address_, port := c.port_ } }
        w1).2 := by
  simp [client.thread_func, session.construct, hopen]

/-- The iteration of `thread_func` for the size at position `i`: 10240 calls
that return and the success line, or calls that return, the first call that
throws, and the error line of its exception. -/
theorem thread_func_iteration_shape (T : Transport σ) (c : client) (n : Nat) (w w1 : σ)
    (hopen : T.open_socket w = (w1, .ok ())) (i S : Nat) (seg : List Event)
    (hS : message_sizes[i]? = some S)
    (hseg : (client.thread_func T c n w).iterations[i]? = some seg) :
    (∃ opss : List (List SocketOp), opss.length = 10240 ∧
      seg = opss.map (fun ops => Event.echo (List.replicate S 0x78) ops (.ok ())) ++
        [.line ("#" ++ toString n ++ ": 10240 echos (size " ++ toString S
          ++ " bytes) received")]) ∨
    (∃ (e : exception) (opss : List (List SocketOp)) (ops : List SocketOp),
      opss.length + 1 ≤ 10240 ∧
      seg = opss.map (fun ops => Event.echo (List.replicate S 0x78) ops (.ok ())) ++
        [.echo (List.replicate S 0x78) ops (.throws e),
         .line ("#" ++ toString n ++ ": " ++ "Exception: " ++ e.what)]) := by
  have hcnt : cnt = 10240 := rfl
  obtain ⟨_, hget⟩ := sizes_loop_iterations T n message_sizes
    { endpoint_ := { addr := c.address_, port := c.port_ } } w1
  rw [thread_func_iterations T c n w w1 hopen] at hseg
  obtain ⟨s1, w2, hseg1⟩ := hget i S seg hS hseg
  rcases size_body_shape T n s1 w2 S with ⟨opss, hl, hev⟩ | ⟨e, opss, ops, hl, hev⟩
  · refine Or.inl ⟨opss, hcnt ▸ hl, ?_⟩
    rw [hseg1, hev, success_line_eq]
  · refine Or.inr ⟨e, opss, ops, by omega, ?_⟩
    rw [hseg1, hev]
    rfl

/-- C4: once its session is constructed, `client::thread_func` runs one
iteration for each of the 11 sizes 0, 1, 3, 7, 234, 6432, 23221, 3311, 34, 4521,
333, in that order, whatever the echo calls do, and returns.  The iteration of
size `S` is either 10240 calls of `echo` that return followed by the success
line, or `k - 1` calls that return, a `k`-th call that throws `e`, with
`k ≤ 10240`, and then the line `#n: Exception: ` followed by `e.what()`: in both
cases one line, the last event of the iteration, and every call passes `S`
bytes `'x'`. -/
theorem thread_func_isolates_failures (T : Transport σ) (c : client) (n : Nat) (w w1 : σ)
    (hopen : T.open_socket w = (w1, .ok ())) :
    message_sizes = [0, 1, 3, 7, 234, 6432, 23221, 3311, 34, 4521, 333] ∧
    (client.thread_func T c n w).iterations.length = 11 ∧
    (client.thread_func T c n w).result = .ok () ∧
    ∀ (i S : Nat) (seg : List Event), message_sizes[i]? = some S →
      (client.thread_func T c n w).iterations[i]? = some seg →
      (∃ opss : List (List SocketOp), opss.length = 10240 ∧
        seg = opss.map (fun ops => Event.echo (List.replicate S 0x78) ops (.ok ())) ++
          [.line ("#" ++ toString n ++ ": 10240 echos (size " ++ toString S
            ++ " bytes) received")]) ∨
      (∃ (e : exception) (opss : List (List SocketOp)) (ops : List SocketOp),
        opss.length + 1 ≤ 10240 ∧
        seg = opss.map (fun ops => Event.echo (List.replicate S 0x78) ops (.ok ())) ++
          [.echo (List.replicate S 0x78) ops (.throws e),
           .line ("#" ++ toString n ++ ": " ++ "Exception: " ++ e.what)]) := by
  have hits := thread_func_iterations T c n w w1 hopen
  obtain ⟨hlen, _⟩ := sizes_loop_iterations T n message_sizes
    { endpoint_ := { addr := c.address_, port := c.port_ } } w1
  refine ⟨rfl, ?_, ?_, ?_⟩
  · rw [hits, hlen]
    rfl
  · simp [client.thread_func, session.construct, hopen]
  · intro i S seg hS hseg
    exact thread_func_iteration_shape T c n w w1 hopen i S seg hS hseg

/-- C4, at a concrete input: worker 7 on a network whose first send fails with
"Network is unreachable" and whose receives all fail.  The worker still runs
its 11 iterations; the first is one call and the error line. -/
theorem thread_func_isolates_failures_witness :
    (client.thread_func scripted { address_ := server_endpoint.addr, port_ := 12122 } 7
      { sends := [.error unreachable], receives := [] }).iterations.length = 11 ∧
    (client.thread_func scripted { address_ := server_endpoint.addr, port_ := 12122 } 7
      { sends := [.error unreachable], receives := [] }).iterations[0]? =
      some [.echo [] [.send_to [] server_endpoint] (.throws (.system_error unreachable)),
            .line "#7: Exception: send_to: Network is unreachable"] :=
  ⟨(thread_func_isolates_failures scripted
      { address_ := server_endpoint.addr, port_ := 12122 } 7
      { sends := [.error unreachable], receives := [] }
      { sends := [.error unreachable], receives := [] } rfl).2.1, by decide⟩

/-! ### The worker on the echoing network -/

theorem loopback_echo (s : session) (request : List Byte) :
    s.echo loopback [] request =
      { self := s, world := [],
        ops := [.send_to request s.endpoint_, .receive_from request.length],
        result := .ok () } := by
  have hst : store request request = request := store_of_length_eq request request rfl
  simp [session.echo, loopback, hst]

theorem loopback_echo_loop (mess : List Byte) (todo : Nat) (s : session) :
    echo_loop loopback mess todo s [] =
      { self := s, world := [],
        events := List.replicate todo
          (.echo mess [.send_to mess s.endpoint_, .receive_from mess.length] (.ok ())),
        result := .ok () } := by
  induction todo with
  | zero => rfl
  | succ k ih => simp [echo_loop, loopback_echo, ih, List.replicate_succ]

theorem loopback_size_body (n : Nat) (s : session) (i : Nat) :
    (size_body loopback n s [] i).self = s ∧
    (size_body loopback n s [] i).world = [] ∧
    ∀ request ops result,
      Event.echo request ops result ∈ (size_body loopback n s [] i).events →
      result = .ok () := by
  refine ⟨?_, ?_, ?_⟩
  · simp [size_body, loopback_echo_loop]
  · simp [size_body, loopback_echo_loop]
  · intro request ops result hmem
    simp only [size_body, loopback_echo_loop, List.mem_append, List.mem_replicate,
      List.mem_singleton] at hmem
    rcases hmem with ⟨_, h⟩ | h
    · simp only [Event.echo.injEq] at h
      exact h.2.2
    · cases h

theorem loopback_sizes_loop (n : Nat) (sizes : List Nat) (s : session) :
    (sizes_loop loopback n sizes s []).2 =
      sizes.map (fun S => (size_body loopback n s [] S).events) := by
  induction sizes with
  | nil => rfl
  | cons S rest ih =>
    simp only [sizes_loop, List.map_cons, (loopback_size_body n s S).1,
      (loopback_size_body n s S).2.1, ih]

/-- C9: in a run of `client::thread_func` of worker `n` whose session is
constructed, the iteration of a size `S` of the list in which every call of
`echo` returns normally consists of exactly 10240 calls of `echo`, one after
the other, each passing `S` bytes 0x78, and then the one line
`#n: 10240 echos (size S bytes) received`.  The size 6432 is in the list, and
its line reads `#n: 10240 echos (size 6432 bytes) received`. -/
theorem thread_func_success_report (T : Transport σ) (c : client) (n : Nat) (w w1 : σ)
    (hopen : T.open_socket w = (w1, .ok ())) (i S : Nat) (seg : List Event)
    (hS : message_sizes[i]? = some S)
    (hseg : (client.thread_func T c n w).iterations[i]? = some seg)
    (hsucc : ∀ request ops result, Event.echo request ops result ∈ seg → result = .ok ()) :
    (∃ opss : List (List SocketOp), opss.length = 10240 ∧
      seg = opss.map (fun ops => Event.echo (List.replicate S 0x78) ops (.ok ())) ++
        [.line ("#" ++ toString n ++ ": 10240 echos (size " ++ toString S
          ++ " bytes) received")]) ∧
    message_sizes[5]? = some 6432 ∧
    (S = 6432 →
      seg.getLast? =
        some (.line ("#" ++ toString n ++ ": 10240 echos (size 6432 bytes) received"))) := by
  have hshape := thread_func_iteration_shape T c n w w1 hopen i S seg hS hseg
  have hmain : ∃ opss : List (List SocketOp), opss.length = 10240 ∧
      seg = opss.map (fun ops => Event.echo (List.replicate S 0x78) ops (.ok ())) ++
        [.line ("#" ++ toString n ++ ": 10240 echos (size " ++ toString S
          ++ " bytes) received")] := by
    rcases hshape with h | ⟨e, opss, ops, _, hev⟩
    · exact h
    · have hthrow := hsucc (List.replicate S 0x78) ops (.throws e) (by simp [hev])
      cases hthrow
  refine ⟨hmain, rfl, ?_⟩
  intro h6432
  obtain ⟨opss, _, hev⟩ := hmain
  subst h6432
  rw [hev, List.getLast?_append, success_line_6432]
  rfl

/-- The iteration of the size 6432 of worker 0 on the echoing network. -/
theorem loopback_iteration_6432 :
    (client.thread_func loopback { address_ := server_endpoint.addr, port_ := 12122 } 0
      []).iterations[5]? =
      some (size_body loopback 0 { endpoint_ := server_endpoint } [] 6432).events := by
  rw [thread_func_iterations loopback _ 0 [] [] rfl, loopback_sizes_loop]
  simp only [message_sizes, List.map_cons, List.getElem?_cons_succ, List.getElem?_cons_zero]
  rfl

/-- C9, at a concrete input: worker 0 on the echoing network, size 6432.  Every
call returns, and the iteration ends with the success line. -/
theorem thread_func_success_report_witness :
    (∀ request ops result,
      Event.echo request ops result ∈
        (size_body loopback 0 { endpoint_ := server_endpoint } [] 6432).events →
      result = .ok ()) ∧
    (size_body loopback 0 { endpoint_ := server_endpoint } [] 6432).events.getLast? =
      some (.line "#0: 10240 echos (size 6432 bytes) received") :=
  ⟨(loopback_size_body 0 { endpoint_ := server_endpoint } 6432).2.2,
   (thread_func_success_report loopback { address_ := server_endpoint.addr, port_ := 12122 }
      0 [] [] rfl 5 6432 _ rfl loopback_iteration_6432
      (loopback_size_body 0 { endpoint_ := server_endpoint } 6432).2.2).2.2 rfl⟩

end Example
